import Mathlib

/-!
# Verification of the Facturador invoicing core

Shallow embedding of the invoicing subsystem of the repository:
* `app/services.py` — money engine (`money_round`, `compute_line_amounts`,
  `compute_totals`);
* `app/pdf.py` — PDF payload builder (`_pdf_totals`,
  `build_invoice_pdf_payload`);
* `app/main.py` — issuance orchestration (`issue_invoice` with its inner
  `assign_number_and_snapshot`), plus the draft-mutation handlers that the
  reachability invariant quantifies over;
* `app/models.py` together with `alembic/versions/0010_invoice_snapshots.py`
  and `0011_add_client_is_deleted.py` — the data model (the snapshot columns
  and `is_deleted` are declared by the migrations; all are nullable).

Python `Decimal` values are embedded as `ℚ` (all arithmetic in the source is
exact decimal arithmetic followed by explicit quantization, which is exact on
rationals).  Nullable columns are embedded as `Option`.  `Client.tax_id` and
`Client.name` are embedded as `String`: although the `tax_id` column is
nullable, every write path in the application (`create_client`,
`update_client` in `app/main.py`) stores a stripped Python `str`, possibly
empty, never `NULL`.
-/
/- Batteries marks the `Rat` arithmetic operations `@[irreducible]`, which
blocks `decide` on concrete rational computations; re-expose them. -/
attribute [local semireducible] Rat.add Rat.mul Rat.inv Rat.sub

/-- `money_round` from `app/services.py`: quantize to two decimal places with
`ROUND_HALF_UP` (ties away from zero, as in Python's `decimal`).  Uses the
computable `Rat.floor` so that concrete instances evaluate by `decide`. -/
def roundHalfUpInt (s : ℚ) : ℤ :=
  if 0 ≤ s.num then (s + 1/2).floor else -((-s + 1/2).floor)

def money_round (v : ℚ) : ℚ :=
  (roundHalfUpInt (v * 100) : ℚ) / 100

/-- A value is a whole number of cents. -/
def IsCents (v : ℚ) : Prop := ∃ k : ℤ, v = (k : ℚ) / 100

/-- An invoice line (`InvoiceLine` in `app/models.py`).  `description`,
`qty`, `unit_price`, `discount_pct`, `sort_order` are all `NOT NULL`
columns. -/
structure InvoiceLine where
  id : Nat
  invoice_id : Nat
  description : String
  qty : ℚ
  unit_price : ℚ
  discount_pct : ℚ
  sort_order : Nat
deriving Repr, DecidableEq

/-- `compute_line_amounts` from `app/services.py`.  (`Decimal(x or 0)` is the
identity on the embedded rational values: the columns are `NOT NULL` and a
falsy `Decimal('0')` maps to the same value `0`.) -/
def compute_line_amounts (lines : List InvoiceLine) :
    List (InvoiceLine × ℚ × ℚ × ℚ) :=
  lines.map (fun line =>
    let line_subtotal := money_round (line.qty * line.unit_price)
    let line_discount := money_round (line_subtotal * (line.discount_pct / 100))
    let line_total := money_round (line_subtotal - line_discount)
    (line, line_subtotal, line_discount, line_total))

/-- The dictionary returned by `compute_totals` / expected by the PDF
renderer. -/
structure Totals where
  subtotal : ℚ
  discount : ℚ
  base : ℚ
  igi : ℚ
  total : ℚ
deriving Repr, DecidableEq

/-- The fields of `Invoice` (`app/models.py` plus the snapshot columns added
by migration `0010_invoice_snapshots.py`, all nullable).  `issue_date` is a
`NOT NULL` column; only its year participates in the modelled logic, so it is
embedded as `issue_date_year` (this also makes the dead
`date.today().year` fallback in `issue_invoice` unreachable, as it is in the
real schema). -/
structure Invoice where
  id : Nat
  status : String
  number : Option Nat
  invoice_number : Option String
  issue_date_year : Nat
  client_id : Nat
  currency : String
  igi_rate : ℚ
  client_name_snapshot : Option String
  client_tax_id_snapshot : Option String
  subtotal_snapshot : Option ℚ
  igi_amount_snapshot : Option ℚ
  total_snapshot : Option ℚ
  payment_terms_days_applied : Option Nat
  igi_rate_snapshot : Option ℚ
  lines : List InvoiceLine
deriving Repr, DecidableEq

/-- `compute_totals` from `app/services.py`. -/
def compute_totals (invoice : Invoice) (lines : List InvoiceLine) : Totals :=
  let amounts := compute_line_amounts lines
  let subtotal := (amounts.map (fun a => a.2.1)).sum
  let discount_total := (amounts.map (fun a => a.2.2.1)).sum
  let base := subtotal - discount_total
  let igi_amount := money_round (base * (invoice.igi_rate / 100))
  let total := money_round (base + igi_amount)
  { subtotal := money_round subtotal
    discount := money_round discount_total
    base := money_round base
    igi := igi_amount
    total := total }

/-- The `clients` table (`app/models.py`, plus `is_deleted` from migration
`0011_add_client_is_deleted.py`).  Only the columns the modelled core reads
are embedded.  `tax_id` is a nullable column, but both write paths
(`create_client`, `update_client`) always store a stripped `str` (possibly
empty), so it is embedded as `String`. -/
structure Client where
  id : Nat
  name : String
  tax_id : String
  payment_terms_days : Option Nat
  is_deleted : Bool
deriving Repr, DecidableEq

/-- The singleton `company` row; only the column read during issuance is
embedded. -/
structure Company where
  name : String
  payment_terms_days : Option Nat
deriving Repr, DecidableEq

/-- `sorted(lines, key=lambda l: (l.sort_order, l.id))` — lexicographic key,
embedded as a stable insertion sort. -/
def lineKeyLE (a b : InvoiceLine) : Bool :=
  decide (a.sort_order < b.sort_order ∨
    (a.sort_order = b.sort_order ∧ a.id ≤ b.id))

def insertSortedLine (x : InvoiceLine) :
    List InvoiceLine → List InvoiceLine
  | [] => [x]
  | y :: ys =>
      if lineKeyLE y x then y :: insertSortedLine x ys else x :: y :: ys

def sortLines : List InvoiceLine → List InvoiceLine
  | [] => []
  | x :: xs => insertSortedLine x (sortLines xs)

/-- `_pdf_totals` from `app/pdf.py`.  (`Decimal(x or 0)` maps `NULL` to `0`
and is the identity on values, hence `Option.getD 0`.) -/
def pdfTotals (invoice : Invoice) (lines : List InvoiceLine) : Totals :=
  if (invoice.status = "issued" ∨ invoice.status = "paid") ∧
      invoice.total_snapshot ≠ none then
    let subtotal := invoice.subtotal_snapshot.getD 0
    let igi_amount := invoice.igi_amount_snapshot.getD 0
    let total := invoice.total_snapshot.getD 0
    { subtotal := subtotal
      discount := 0
      base := total - igi_amount
      igi := igi_amount
      total := total }
  else compute_totals invoice lines

/-- One entry of the `lines` list of the PDF payload. -/
structure PdfLine where
  index : Nat
  description : String
  qty : ℚ
  unit_price : ℚ
  discount_pct : ℚ
  total : ℚ
deriving Repr, DecidableEq

/-- The dictionary built by `build_invoice_pdf_payload`.  The `issue_date`
and `due_date` passthrough entries are not embedded (no modelled logic reads
them). -/
structure PdfPayload where
  invoice_number : String
  status : String
  client_name : String
  client_tax_id : String
  currency : String
  igi_rate : ℚ
  show_igi_exempt_footer : Bool
  totals : Totals
  lines : List PdfLine
deriving Repr, DecidableEq

/-- The `required` dictionary scan of `build_invoice_pdf_payload`: the first
`None` field among the six checked ones, in the source's dict order. -/
def requiredSnapshotMissing (invoice : Invoice) : Option String :=
  if invoice.client_name_snapshot = none then some "client_name_snapshot"
  else if invoice.client_tax_id_snapshot = none then some "client_tax_id_snapshot"
  else if invoice.subtotal_snapshot = none then some "subtotal_snapshot"
  else if invoice.igi_amount_snapshot = none then some "igi_amount_snapshot"
  else if invoice.total_snapshot = none then some "total_snapshot"
  else if invoice.igi_rate_snapshot = none then some "igi_rate_snapshot"
  else none

/-- Python's `a or b` on an optional string: `None` and `""` are falsy. -/
def strOr (o : Option String) (fallback : String) : String :=
  match o with
  | none => fallback
  | some s => if s = "" then fallback else s

/-- The per-line payload entries (`enumerate(line_amounts, start=1)`). -/
def pdfLines (sorted_lines : List InvoiceLine) : List PdfLine :=
  (compute_line_amounts sorted_lines).enum.map (fun p =>
    { index := p.1 + 1
      description := p.2.1.description
      qty := p.2.1.qty
      unit_price := p.2.1.unit_price
      discount_pct := p.2.1.discount_pct
      total := p.2.2.2.2 })

/-- `build_invoice_pdf_payload` from `app/pdf.py`.  The `ValueError` raised
for a missing snapshot becomes `Except.error` carrying the same message.  In
the finalized branch the `Option.getD` defaults are dead: the `required`
scan has already established that all six fields are `some`.
`invoice.client` is passed explicitly as `client` (the code guards
`if invoice.client else ""`). -/
def build_invoice_pdf_payload (invoice : Invoice) (client : Option Client)
    (lines : List InvoiceLine) : Except String PdfPayload :=
  let sorted_lines := sortLines lines
  let is_final := invoice.status = "issued" ∨ invoice.status = "paid"
  if is_final then
    match requiredSnapshotMissing invoice with
    | some field =>
        .error ("Missing snapshot: " ++ field ++ " for invoice " ++
          toString invoice.id)
    | none =>
        let totals : Totals :=
          { subtotal := invoice.subtotal_snapshot.getD 0
            discount := 0
            base := invoice.total_snapshot.getD 0 -
              invoice.igi_amount_snapshot.getD 0
            igi := invoice.igi_amount_snapshot.getD 0
            total := invoice.total_snapshot.getD 0 }
        let client_name := invoice.client_name_snapshot.getD ""
        let client_tax_id := invoice.client_tax_id_snapshot.getD ""
        let igi_rate := invoice.igi_rate_snapshot.getD 0
        .ok
          { invoice_number := strOr invoice.invoice_number (toString invoice.id)
            status := invoice.status
            client_name := client_name
            client_tax_id := client_tax_id
            currency := invoice.currency
            igi_rate := igi_rate
            show_igi_exempt_footer := decide (igi_rate = 0)
            totals := totals
            lines := pdfLines sorted_lines }
  else
    let totals := pdfTotals invoice sorted_lines
    let client_name := strOr invoice.client_name_snapshot
      (match client with | some c => c.name | none => "")
    let client_tax_id := strOr invoice.client_tax_id_snapshot
      (match client with | some c => c.tax_id | none => "")
    let igi_rate :=
      match invoice.igi_rate_snapshot with
      | some r => r
      | none => invoice.igi_rate
    .ok
      { invoice_number := strOr invoice.invoice_number (toString invoice.id)
        status := invoice.status
        client_name := client_name
        client_tax_id := client_tax_id
        currency := invoice.currency
        igi_rate := igi_rate
        show_igi_exempt_footer := decide (igi_rate = 0)
        totals := totals
        lines := pdfLines sorted_lines }

/-- The persistent state acted on by the modelled handlers: the `clients`
table, the singleton `company` row, the `invoices` table (lines inlined via
the `lines` relationship) and the `invoice_sequences` table as
`(year_full, next_number)` rows. -/
structure DbState where
  clients : List Client
  company : Option Company
  invoices : List Invoice
  seqs : List (Nat × Nat)
deriving Repr, DecidableEq

/-- The freshly migrated database: all tables empty. -/
def initState : DbState :=
  { clients := [], company := none, invoices := [], seqs := [] }

def findInvoice (st : DbState) (iid : Nat) : Option Invoice :=
  st.invoices.find? (fun i => i.id == iid)

def findClient (st : DbState) (cid : Nat) : Option Client :=
  st.clients.find? (fun c => c.id == cid)

/-- `next_number` of the sequence row for `year` in a row list — the value
`assign_number_and_snapshot` reads after creating the row with
`next_number = 1` when absent. -/
def seqNext (seqs : List (Nat × Nat)) (year : Nat) : Nat :=
  match seqs.find? (fun p => p.1 == year) with
  | some p => p.2
  | none => 1

def getNext (st : DbState) (year : Nat) : Nat := seqNext st.seqs year

/-- Store `next_number = n` for `year`, creating the row when absent (the
`db.add(seq); db.flush()` path). -/
def setNext (seqs : List (Nat × Nat)) (year n : Nat) : List (Nat × Nat) :=
  if (seqs.find? (fun p => p.1 == year)).isSome then
    seqs.map (fun p => if p.1 == year then (p.1, n) else p)
  else seqs ++ [(year, n)]

def updateInvoice (st : DbState) (iid : Nat) (f : Invoice → Invoice) :
    DbState :=
  { st with invoices := st.invoices.map (fun i => if i.id == iid then f i else i) }

/-- `_effective_payment_terms_days` from `app/main.py`. -/
def effective_payment_terms_days (client : Client) (company : Option Company) :
    Option Nat :=
  match client.payment_terms_days with
  | some d => some d
  | none =>
      match company with
      | some c => c.payment_terms_days
      | none => none

/-- Python `f"{m:02d}"` on a natural number: zero-pad to at least two
digits. -/
def pad2 (m : Nat) : String :=
  if m < 10 then "0" ++ toString m else toString m

/-- `f"TC{year_full % 100:02d}{n:02d}"`. -/
def formatInvoiceCode (year n : Nat) : String :=
  "TC" ++ pad2 (year % 100) ++ pad2 n

/-- `assign_number_and_snapshot` (inner function of `issue_invoice` in
`app/main.py`): read `n` from the year's sequence row (creating it at 1),
bump it to `n + 1`, and write number, formatted code, status and the seven
snapshot columns onto the invoice.  `year`, `cl` (the invoice's client),
`totals` and `terms_applied` are the values the handler computed before the
retry loop.  The per-invoice write block is split out as `applySnapshot`
(the body of the `invoice.<field> = ...` assignments). -/
def applySnapshot (year n : Nat) (cl : Client) (totals : Totals)
    (terms_applied : Nat) (inv : Invoice) : Invoice :=
  { inv with
    number := some n
    invoice_number := some (formatInvoiceCode year n)
    status := "issued"
    client_name_snapshot := some cl.name
    client_tax_id_snapshot := some cl.tax_id
    subtotal_snapshot := some totals.subtotal
    igi_amount_snapshot := some totals.igi
    total_snapshot := some totals.total
    payment_terms_days_applied := some terms_applied
    igi_rate_snapshot := some inv.igi_rate }

def assign_number_and_snapshot (st : DbState) (iid : Nat) (year : Nat)
    (cl : Client) (totals : Totals) (terms_applied : Nat) : DbState :=
  let n := getNext st year
  let st1 := { st with seqs := setNext st.seqs year (n + 1) }
  updateInvoice st1 iid (applySnapshot year n cl totals terms_applied)

/-- Outcome of `POST /invoices/{id}/issue`.  `alreadyFinal` is the 303
redirect returned for a non-`draft` invoice (not an error); `clientMissing`
models the unhandled `AttributeError` on a dangling `client_id` (impossible
under the FK constraint); `integrityFailure` is the re-raised
`IntegrityError` after the bounded retry. -/
inductive IssueResult where
  | notFound
  | alreadyFinal
  | emptyInvoice
  | clientMissing
  | issuedOk (year : Nat) (number : Nat)
  | integrityFailure
deriving Repr, DecidableEq

/-- `issue_invoice` from `app/main.py`.  `commitFails k` says whether the
`db.commit()` of attempt `k` raises `IntegrityError`; a rollback restores
the pre-request state, so the retry re-runs `assign_number_and_snapshot`
from `st` (totals and terms were computed before the loop and are reused).
On success the allocation `(year, n)` is reported in the result. -/
def issue_invoice (st : DbState) (iid : Nat) (commitFails : Nat → Bool) :
    IssueResult × DbState :=
  match findInvoice st iid with
  | none => (.notFound, st)
  | some invoice =>
      if invoice.status ≠ "draft" then (.alreadyFinal, st)
      else if invoice.lines = [] then (.emptyInvoice, st)
      else
        match findClient st invoice.client_id with
        | none => (.clientMissing, st)
        | some cl =>
            let year_full := invoice.issue_date_year
            let terms_applied :=
              (effective_payment_terms_days cl st.company).getD 0
            let totals := compute_totals invoice invoice.lines
            let n := getNext st year_full
            let st1 := assign_number_and_snapshot st iid year_full cl totals
              terms_applied
            if commitFails 0 then
              if commitFails 1 then (.integrityFailure, st)
              else (.issuedOk year_full n, st1)
            else (.issuedOk year_full n, st1)

/-- The oracle of a run in which no commit raises `IntegrityError`. -/
def noFailure : Nat → Bool := fun _ => false

/-- The `(year, number)` allocation performed by one issuance request, when
it allocated at all. -/
def issueEvent : IssueResult → Option (Nat × Nat)
  | .issuedOk y n => some (y, n)
  | _ => none

/-- Run a list of issuance requests (no commit failures), collecting the
`(year, number)` allocation events in order. -/
def issueRun : DbState → List Nat → List (Nat × Nat) × DbState
  | st, [] => ([], st)
  | st, iid :: rest =>
      let r := issue_invoice st iid noFailure
      let rec_rest := issueRun r.2 rest
      ((issueEvent r.1).toList ++ rec_rest.1, rec_rest.2)

/-- Kernel-computable comparisons on `ℚ` via the sign of `num` (the Mathlib
order instances on `ℚ` do not reduce under `decide`); `ratNonneg q = true ↔
0 ≤ q` and `ratLeB a b = true ↔ a ≤ b`. -/
def ratNonneg (q : ℚ) : Bool := decide (0 ≤ q.num)

def ratPos (q : ℚ) : Bool := decide (0 < q.num)

def ratLeB (a b : ℚ) : Bool := decide ((a - b).num ≤ 0)

def nextClientId (st : DbState) : Nat :=
  (st.clients.map Client.id).foldr max 0 + 1

def nextInvoiceId (st : DbState) : Nat :=
  (st.invoices.map Invoice.id).foldr max 0 + 1

def nextLineId (st : DbState) : Nat :=
  (st.invoices.foldr (fun i acc => i.lines.map InvoiceLine.id ++ acc)
    []).foldr max 0 + 1

/-- `create_client` (`POST /clients` in `app/main.py`): rejected when the
stripped name is empty, otherwise inserts a row; `tax_id` is always the
submitted stripped string. -/
def create_client (st : DbState) (name tax_id : String)
    (terms : Option Nat) : DbState :=
  if name = "" then st
  else
    { st with clients := st.clients ++
        [{ id := nextClientId st, name := name, tax_id := tax_id,
           payment_terms_days := terms, is_deleted := false }] }

/-- `update_client` (`POST /clients/{id}/edit`): same validation, updates
the row in place; it never touches any invoice row. -/
def update_client (st : DbState) (cid : Nat) (name tax_id : String)
    (terms : Option Nat) : DbState :=
  if name = "" then st
  else
    { st with clients := st.clients.map (fun c =>
        if c.id == cid then
          { c with
            name := name
            tax_id := tax_id
            payment_terms_days := terms }
        else c) }

/-- `update_company` (`POST /company`): creates or overwrites the singleton
row (net effect of both branches of the handler). -/
def update_company (st : DbState) (name : String) (terms : Option Nat) :
    DbState :=
  if name = "" then st
  else { st with company := some { name := name, payment_terms_days := terms } }

/-- `delete_client` (`POST /clients/{id}/delete`): soft delete. -/
def delete_client (st : DbState) (cid : Nat) : DbState :=
  { st with clients := st.clients.map (fun c =>
      if c.id == cid then { c with is_deleted := true } else c) }

/-- `restore_client` (`POST /clients/{id}/restore`). -/
def restore_client (st : DbState) (cid : Nat) : DbState :=
  { st with clients := st.clients.map (fun c =>
      if c.id == cid then { c with is_deleted := false } else c) }

/-- `create_invoice` (`POST /invoices/new`): after validation (client
exists, `igi_rate ≥ 0`) inserts a draft invoice with no lines, no number and
no snapshot fields. -/
def create_invoice (st : DbState) (cid year : Nat) (currency : String)
    (igi_rate : ℚ) : DbState :=
  match findClient st cid with
  | none => st
  | some _ =>
      if ratNonneg igi_rate = false then st
      else
        { st with invoices := st.invoices ++
            [{ id := nextInvoiceId st, status := "draft", number := none,
               invoice_number := none, issue_date_year := year,
               client_id := cid, currency := currency, igi_rate := igi_rate,
               client_name_snapshot := none, client_tax_id_snapshot := none,
               subtotal_snapshot := none, igi_amount_snapshot := none,
               total_snapshot := none, payment_terms_days_applied := none,
               igi_rate_snapshot := none, lines := [] }] }

/-- `_validate_line_form` from `app/main.py`: description non-empty and at
most 500 characters, `qty > 0`, `unit_price ≥ 0`, `0 ≤ discount_pct ≤
100`. -/
def validLineForm (description : String) (qty unit_price discount_pct : ℚ) :
    Bool :=
  decide (description ≠ "") && decide (description.length ≤ 500) &&
    ratPos qty && ratNonneg unit_price &&
    ratNonneg discount_pct && ratLeB discount_pct 100

/-- `add_line` (`POST /invoices/{id}/lines`): guarded by
`_invoice_status_guard` (draft only) and `_validate_line_form`; appends a
line with `sort_order = max(existing) + 1` (1 when there are no lines). -/
def add_line (st : DbState) (iid : Nat) (description : String)
    (qty unit_price discount_pct : ℚ) : DbState :=
  match findInvoice st iid with
  | none => st
  | some invoice =>
      if invoice.status ≠ "draft" then st
      else if validLineForm description qty unit_price discount_pct = false
      then st
      else
        let next_sort_order :=
          (invoice.lines.map InvoiceLine.sort_order).foldr max 0 + 1
        let line : InvoiceLine :=
          { id := nextLineId st, invoice_id := iid,
            description := description, qty := qty,
            unit_price := unit_price, discount_pct := discount_pct,
            sort_order := next_sort_order }
        updateInvoice st iid (fun inv => { inv with lines := inv.lines ++ [line] })

/-- `delete_line` (`POST /invoices/{id}/lines/{lid}/delete`): draft guard,
then removes the line (no-op when the line does not exist, matching the
404). -/
def delete_line (st : DbState) (iid lid : Nat) : DbState :=
  match findInvoice st iid with
  | none => st
  | some invoice =>
      if invoice.status ≠ "draft" then st
      else
        updateInvoice st iid (fun inv =>
          { inv with lines := inv.lines.filter (fun l => l.id != lid) })

/-- `delete_invoice` (`POST /invoices/{id}/delete`): removes the row (lines
cascade with it). -/
def delete_invoice (st : DbState) (iid : Nat) : DbState :=
  { st with invoices := st.invoices.filter (fun i => i.id != iid) }

/-- Modelled from the spec: the `issued → paid` transition is performed
outside this core (§4.2 "paid is reachable only externally; this core does
not implement the issued→paid transition"); it changes only the status of an
already-issued invoice. -/
def mark_paid (st : DbState) (iid : Nat) : DbState :=
  updateInvoice st iid (fun inv =>
    if inv.status = "issued" then { inv with status := "paid" } else inv)

/-- One user-visible mutation of the modelled subsystem. -/
inductive Op where
  | createClient (name tax_id : String) (terms : Option Nat)
  | updateClient (cid : Nat) (name tax_id : String) (terms : Option Nat)
  | updateCompany (name : String) (terms : Option Nat)
  | deleteClient (cid : Nat)
  | restoreClient (cid : Nat)
  | createInvoice (cid year : Nat) (currency : String) (igi_rate : ℚ)
  | addLine (iid : Nat) (description : String) (qty unit_price discount_pct : ℚ)
  | deleteLine (iid lid : Nat)
  | issue (iid : Nat) (commitFails : Nat → Bool)
  | markPaid (iid : Nat)
  | deleteInvoice (iid : Nat)

def applyOp (st : DbState) : Op → DbState
  | .createClient name tax_id terms => create_client st name tax_id terms
  | .updateClient cid name tax_id terms => update_client st cid name tax_id terms
  | .updateCompany name terms => update_company st name terms
  | .deleteClient cid => delete_client st cid
  | .restoreClient cid => restore_client st cid
  | .createInvoice cid year currency igi_rate =>
      create_invoice st cid year currency igi_rate
  | .addLine iid description qty unit_price discount_pct =>
      add_line st iid description qty unit_price discount_pct
  | .deleteLine iid lid => delete_line st iid lid
  | .issue iid commitFails => (issue_invoice st iid commitFails).2
  | .markPaid iid => mark_paid st iid
  | .deleteInvoice iid => delete_invoice st iid

/-- A state is reachable when it results from running a sequence of
modelled operations on the freshly migrated database. -/
def runOps (ops : List Op) : DbState := ops.foldl applyOp initState

/-- All nine frozen fields are `NULL`. -/
def snapshotFieldsNone (inv : Invoice) : Prop :=
  inv.number = none ∧ inv.invoice_number = none ∧
  inv.client_name_snapshot = none ∧ inv.client_tax_id_snapshot = none ∧
  inv.subtotal_snapshot = none ∧ inv.igi_amount_snapshot = none ∧
  inv.total_snapshot = none ∧ inv.payment_terms_days_applied = none ∧
  inv.igi_rate_snapshot = none

/-- All nine frozen fields are non-`NULL`. -/
def snapshotFieldsSome (inv : Invoice) : Prop :=
  inv.number ≠ none ∧ inv.invoice_number ≠ none ∧
  inv.client_name_snapshot ≠ none ∧ inv.client_tax_id_snapshot ≠ none ∧
  inv.subtotal_snapshot ≠ none ∧ inv.igi_amount_snapshot ≠ none ∧
  inv.total_snapshot ≠ none ∧ inv.payment_terms_days_applied ≠ none ∧
  inv.igi_rate_snapshot ≠ none

/-- The all-or-none snapshot invariant tied to the lifecycle status. -/
def snapshotConsistent (inv : Invoice) : Prop :=
  (inv.status = "draft" ∧ snapshotFieldsNone inv) ∨
  ((inv.status = "issued" ∨ inv.status = "paid") ∧ snapshotFieldsSome inv)

/-- Every invoice of the state satisfies the snapshot invariant. -/
def InvariantState (st : DbState) : Prop :=
  ∀ inv ∈ st.invoices, snapshotConsistent inv

/-- Live data for the C2 witness: the client record and the line rows differ
between the two calls, but the snapshot fields agree. -/
def witC2inv1 : Invoice :=
  { id := 1, status := "issued", number := some 1,
    invoice_number := some "TC2601", issue_date_year := 2026, client_id := 1,
    currency := "EUR", igi_rate := 5,
    client_name_snapshot := some "Old Name",
    client_tax_id_snapshot := some "T1",
    subtotal_snapshot := some 10, igi_amount_snapshot := some (1/2),
    total_snapshot := some (21/2), payment_terms_days_applied := some 0,
    igi_rate_snapshot := some 5,
    lines := [{ id := 1, invoice_id := 1, description := "Work", qty := 1,
                unit_price := 10, discount_pct := 0, sort_order := 1 }] }

def witC2inv2 : Invoice :=
  { witC2inv1 with
    status := "paid"
    igi_rate := 7
    lines := [{ id := 1, invoice_id := 1, description := "Work", qty := 1,
                unit_price := 999, discount_pct := 0, sort_order := 1 }] }

def witC2client1 : Client :=
  { id := 1, name := "Old Name", tax_id := "T1",
    payment_terms_days := none, is_deleted := false }

def witC2client2 : Client :=
  { id := 1, name := "New Name", tax_id := "T2",
    payment_terms_days := none, is_deleted := false }

/-- An issued invoice whose six required snapshot fields are present but
whose `number`, `invoice_number` and `payment_terms_days_applied` snapshot
fields are NULL. -/
def cexInvoiceC8 : Invoice :=
  { id := 7, status := "issued", number := none, invoice_number := none,
    issue_date_year := 2026, client_id := 1, currency := "EUR", igi_rate := 0,
    client_name_snapshot := some "ACME",
    client_tax_id_snapshot := some "X123",
    subtotal_snapshot := some 10, igi_amount_snapshot := some 0,
    total_snapshot := some 10, payment_terms_days_applied := none,
    igi_rate_snapshot := some 0, lines := [] }

/-- A draft invoice carrying a stale (non-NULL, non-empty) name snapshot, an
empty tax-id snapshot, and a zero rate snapshot. -/
def witC10inv : Invoice :=
  { id := 3, status := "draft", number := none, invoice_number := none,
    issue_date_year := 2026, client_id := 1, currency := "EUR", igi_rate := 5,
    client_name_snapshot := some "Frozen Name",
    client_tax_id_snapshot := some "",
    subtotal_snapshot := none, igi_amount_snapshot := none,
    total_snapshot := none, payment_terms_days_applied := none,
    igi_rate_snapshot := some 0, lines := [] }

/-- An issued invoice whose `client_tax_id_snapshot` is NULL. -/
def witC8inv : Invoice :=
  { cexInvoiceC8 with id := 9, client_tax_id_snapshot := none }

/-- Concrete fixtures for witness instances. -/
def witClient : Client :=
  { id := 1, name := "ACME SL", tax_id := "A123", payment_terms_days := some 30,
    is_deleted := false }

def witLine (iid : Nat) : InvoiceLine :=
  { id := 10 * iid, invoice_id := iid, description := "Servicio", qty := 1,
    unit_price := 10, discount_pct := 0, sort_order := 1 }

def witDraft (iid year : Nat) : Invoice :=
  { id := iid, status := "draft", number := none, invoice_number := none,
    issue_date_year := year, client_id := 1, currency := "EUR", igi_rate := 0,
    client_name_snapshot := none, client_tax_id_snapshot := none,
    subtotal_snapshot := none, igi_amount_snapshot := none,
    total_snapshot := none, payment_terms_days_applied := none,
    igi_rate_snapshot := none, lines := [witLine iid] }

def witEmptyDraft : Invoice :=
  { witDraft 4 2026 with lines := [] }

def witIssuedInv : Invoice :=
  { id := 5, status := "issued", number := some 1,
    invoice_number := some "TC2501", issue_date_year := 2025, client_id := 1,
    currency := "EUR", igi_rate := 0,
    client_name_snapshot := some "ACME SL",
    client_tax_id_snapshot := some "A123", subtotal_snapshot := some 10,
    igi_amount_snapshot := some 0, total_snapshot := some 10,
    payment_terms_days_applied := some 30, igi_rate_snapshot := some 0,
    lines := [witLine 5] }

/-- Three drafts (two in 2026, one in 2027), an empty draft and an
already-issued invoice, with a fresh sequence table. -/
def scenarioState : DbState :=
  { clients := [witClient], company := none,
    invoices := [witDraft 1 2026, witDraft 2 2026, witDraft 3 2027,
      witEmptyDraft, witIssuedInv],
    seqs := [] }

/-- The oracle that fails on the first attempt only. -/
def failFirstAttempt : Nat → Bool := fun k => k == 0

theorem ratFloor_eq_intFloor (q : ℚ) : q.floor = ⌊q⌋ := by
  rw [Rat.floor_def' q, Rat.floor_def]

theorem roundHalfUpInt_intCast (k : ℤ) : roundHalfUpInt (k : ℚ) = k := by
  unfold roundHalfUpInt
  by_cases h : 0 ≤ ((k:ℚ)).num
  · rw [if_pos h, ratFloor_eq_intFloor]
    have : ((k:ℚ) + 1/2) = (1/2 : ℚ) + (k:ℚ) := by ring
    rw [this, Int.floor_add_int]
    norm_num
  · rw [if_neg h, ratFloor_eq_intFloor]
    have : (-(k:ℚ) + 1/2) = (1/2 : ℚ) + ((-k : ℤ) : ℚ) := by push_cast; ring
    rw [this, Int.floor_add_int]
    norm_num

theorem money_round_cents (v : ℚ) : IsCents (money_round v) :=
  ⟨roundHalfUpInt (v * 100), rfl⟩

theorem money_round_eq_self (v : ℚ) (h : IsCents v) : money_round v = v := by
  obtain ⟨k, rfl⟩ := h
  unfold money_round
  have h100 : ((k : ℚ) / 100) * 100 = (k : ℚ) := by
    field_simp
  rw [h100, roundHalfUpInt_intCast]

theorem IsCents.add {a b : ℚ} (ha : IsCents a) (hb : IsCents b) :
    IsCents (a + b) := by
  obtain ⟨j, rfl⟩ := ha
  obtain ⟨k, rfl⟩ := hb
  exact ⟨j + k, by push_cast; ring⟩

theorem IsCents.sub {a b : ℚ} (ha : IsCents a) (hb : IsCents b) :
    IsCents (a - b) := by
  obtain ⟨j, rfl⟩ := ha
  obtain ⟨k, rfl⟩ := hb
  exact ⟨j - k, by push_cast; ring⟩

theorem IsCents.zero : IsCents 0 := ⟨0, by norm_num⟩

theorem sum_line_subtotals_cents (lines : List InvoiceLine) :
    IsCents (((compute_line_amounts lines).map (fun a => a.2.1)).sum) := by
  induction lines with
  | nil => exact IsCents.zero
  | cons l ls ih =>
      simp only [compute_line_amounts, List.map_cons, List.sum_cons] at *
      exact IsCents.add (money_round_cents _) ih

theorem sum_line_discounts_cents (lines : List InvoiceLine) :
    IsCents (((compute_line_amounts lines).map (fun a => a.2.2.1)).sum) := by
  induction lines with
  | nil => exact IsCents.zero
  | cons l ls ih =>
      simp only [compute_line_amounts, List.map_cons, List.sum_cons] at *
      exact IsCents.add (money_round_cents _) ih

theorem requiredSnapshotMissing_eq_none_iff (inv : Invoice) :
    requiredSnapshotMissing inv = none ↔
      (inv.client_name_snapshot ≠ none ∧ inv.client_tax_id_snapshot ≠ none ∧
       inv.subtotal_snapshot ≠ none ∧ inv.igi_amount_snapshot ≠ none ∧
       inv.total_snapshot ≠ none ∧ inv.igi_rate_snapshot ≠ none) := by
  unfold requiredSnapshotMissing
  split_ifs <;> simp_all

/-- Shape of `build_invoice_pdf_payload` on a finalized invoice whose six
required snapshot fields are present. -/
theorem build_final_eq (inv : Invoice) (client : Option Client)
    (lines : List InvoiceLine)
    (hf : inv.status = "issued" ∨ inv.status = "paid")
    (hm : requiredSnapshotMissing inv = none) :
    build_invoice_pdf_payload inv client lines = .ok
      { invoice_number := strOr inv.invoice_number (toString inv.id)
        status := inv.status
        client_name := inv.client_name_snapshot.getD ""
        client_tax_id := inv.client_tax_id_snapshot.getD ""
        currency := inv.currency
        igi_rate := inv.igi_rate_snapshot.getD 0
        show_igi_exempt_footer := decide (inv.igi_rate_snapshot.getD 0 = 0)
        totals :=
          { subtotal := inv.subtotal_snapshot.getD 0
            discount := 0
            base := inv.total_snapshot.getD 0 - inv.igi_amount_snapshot.getD 0
            igi := inv.igi_amount_snapshot.getD 0
            total := inv.total_snapshot.getD 0 }
        lines := pdfLines (sortLines lines) } := by
  unfold build_invoice_pdf_payload
  rw [if_pos hf, hm]

/-- Shape of `build_invoice_pdf_payload` on a finalized invoice with a
missing required snapshot field. -/
theorem build_final_error (inv : Invoice) (client : Option Client)
    (lines : List InvoiceLine)
    (hf : inv.status = "issued" ∨ inv.status = "paid")
    (field : String) (hm : requiredSnapshotMissing inv = some field) :
    build_invoice_pdf_payload inv client lines =
      .error ("Missing snapshot: " ++ field ++ " for invoice " ++
        toString inv.id) := by
  unfold build_invoice_pdf_payload
  rw [if_pos hf, hm]

/-- Shape of `build_invoice_pdf_payload` on a draft invoice. -/
theorem build_draft_eq (inv : Invoice) (client : Option Client)
    (lines : List InvoiceLine) (hd : inv.status = "draft") :
    build_invoice_pdf_payload inv client lines = .ok
      { invoice_number := strOr inv.invoice_number (toString inv.id)
        status := inv.status
        client_name := strOr inv.client_name_snapshot
          (match client with | some c => c.name | none => "")
        client_tax_id := strOr inv.client_tax_id_snapshot
          (match client with | some c => c.tax_id | none => "")
        currency := inv.currency
        igi_rate :=
          (match inv.igi_rate_snapshot with
           | some r => r
           | none => inv.igi_rate)
        show_igi_exempt_footer :=
          decide ((match inv.igi_rate_snapshot with
                   | some r => r
                   | none => inv.igi_rate : ℚ) = 0)
        totals := pdfTotals inv (sortLines lines)
        lines := pdfLines (sortLines lines) } := by
  unfold build_invoice_pdf_payload
  have hne : ¬(inv.status = "issued" ∨ inv.status = "paid") := by
    rw [hd]; decide
  rw [if_neg hne]

/-- C2: for every invoice with status issued or paid whose snapshot fields
are all present, `build_invoice_pdf_payload` takes its totals (subtotal,
igi, total, and base = total − igi), client_name, client_tax_id and igi_rate
exclusively from the snapshot fields: two calls whose invoices agree on the
snapshot fields return identical values for these payload entries,
regardless of differences in the live client record or the current line
rows. -/
theorem pdf_payload_reads_only_snapshots
    (inv1 inv2 : Invoice) (c1 c2 : Option Client) (l1 l2 : List InvoiceLine)
    (h1 : inv1.status = "issued" ∨ inv1.status = "paid")
    (h2 : inv2.status = "issued" ∨ inv2.status = "paid")
    (hname : inv1.client_name_snapshot = inv2.client_name_snapshot)
    (htax : inv1.client_tax_id_snapshot = inv2.client_tax_id_snapshot)
    (hsub : inv1.subtotal_snapshot = inv2.subtotal_snapshot)
    (higi : inv1.igi_amount_snapshot = inv2.igi_amount_snapshot)
    (htot : inv1.total_snapshot = inv2.total_snapshot)
    (hrate : inv1.igi_rate_snapshot = inv2.igi_rate_snapshot)
    (hpresent : requiredSnapshotMissing inv1 = none) :
    ∃ p1 p2, build_invoice_pdf_payload inv1 c1 l1 = .ok p1 ∧
      build_invoice_pdf_payload inv2 c2 l2 = .ok p2 ∧
      p1.totals.subtotal = p2.totals.subtotal ∧
      p1.totals.igi = p2.totals.igi ∧
      p1.totals.total = p2.totals.total ∧
      p1.totals.base = p2.totals.base ∧
      p1.totals.base = p1.totals.total - p1.totals.igi ∧
      p1.client_name = p2.client_name ∧
      p1.client_tax_id = p2.client_tax_id ∧
      p1.igi_rate = p2.igi_rate := by
  have hpresent2 : requiredSnapshotMissing inv2 = none := by
    unfold requiredSnapshotMissing at hpresent ⊢
    rw [← hname, ← htax, ← hsub, ← higi, ← htot, ← hrate]
    exact hpresent
  refine ⟨_, _, build_final_eq inv1 c1 l1 h1 hpresent,
    build_final_eq inv2 c2 l2 h2 hpresent2, ?_, ?_, ?_, ?_, ?_, ?_, ?_, ?_⟩ <;>
    simp [hname, htax, hsub, higi, htot, hrate]

theorem pdf_payload_reads_only_snapshots_witness :
    ∃ p1 p2,
      build_invoice_pdf_payload witC2inv1 (some witC2client1) witC2inv1.lines
        = .ok p1 ∧
      build_invoice_pdf_payload witC2inv2 (some witC2client2) witC2inv2.lines
        = .ok p2 ∧
      p1.totals.subtotal = p2.totals.subtotal ∧
      p1.totals.igi = p2.totals.igi ∧
      p1.totals.total = p2.totals.total ∧
      p1.totals.base = p2.totals.base ∧
      p1.totals.base = p1.totals.total - p1.totals.igi ∧
      p1.client_name = p2.client_name ∧
      p1.client_tax_id = p2.client_tax_id ∧
      p1.igi_rate = p2.igi_rate :=
  pdf_payload_reads_only_snapshots witC2inv1 witC2inv2
    (some witC2client1) (some witC2client2) witC2inv1.lines witC2inv2.lines
    (by decide) (by decide) (by decide) (by decide) (by decide) (by decide)
    (by decide) (by decide) (by decide)

/-- C8 (amended): for every invoice with status issued or paid,
`build_invoice_pdf_payload` fails with a missing-snapshot error iff at least
one of the SIX required snapshot fields (`client_name_snapshot`,
`client_tax_id_snapshot`, `subtotal_snapshot`, `igi_amount_snapshot`,
`total_snapshot`, `igi_rate_snapshot`) is NULL; the error names the first
missing field, and no default is substituted (`number`, `invoice_number`
and `payment_terms_days_applied` are not checked). -/
theorem pdf_missing_snapshot_iff (inv : Invoice) (client : Option Client)
    (lines : List InvoiceLine)
    (hf : inv.status = "issued" ∨ inv.status = "paid") :
    ((∃ msg, build_invoice_pdf_payload inv client lines = .error msg) ↔
      (inv.client_name_snapshot = none ∨ inv.client_tax_id_snapshot = none ∨
       inv.subtotal_snapshot = none ∨ inv.igi_amount_snapshot = none ∨
       inv.total_snapshot = none ∨ inv.igi_rate_snapshot = none)) ∧
    (∀ field, requiredSnapshotMissing inv = some field →
      build_invoice_pdf_payload inv client lines =
        .error ("Missing snapshot: " ++ field ++ " for invoice " ++
          toString inv.id)) := by
  constructor
  · constructor
    · rintro ⟨msg, hmsg⟩
      by_contra hnone
      push_neg at hnone
      have hm : requiredSnapshotMissing inv = none :=
        (requiredSnapshotMissing_eq_none_iff inv).mpr
          ⟨hnone.1, hnone.2.1, hnone.2.2.1, hnone.2.2.2.1,
           hnone.2.2.2.2.1, hnone.2.2.2.2.2⟩
      rw [build_final_eq inv client lines hf hm] at hmsg
      exact Except.noConfusion hmsg
    · intro hsome
      cases hr : requiredSnapshotMissing inv with
      | none =>
          have hall := (requiredSnapshotMissing_eq_none_iff inv).mp hr
          tauto
      | some f => exact ⟨_, build_final_error inv client lines hf f hr⟩
  · intro f hf2
    exact build_final_error inv client lines hf f hf2

/-- C8 counterexample: an issued invoice with three of its snapshot fields
NULL (`number`, `invoice_number`, `payment_terms_days_applied`) for which
`build_invoice_pdf_payload` succeeds — refuting "fails iff at least one of
the eight snapshot fields is NULL". -/
theorem pdf_missing_snapshot_cex :
    cexInvoiceC8.status = "issued" ∧
    cexInvoiceC8.number = none ∧
    cexInvoiceC8.invoice_number = none ∧
    cexInvoiceC8.payment_terms_days_applied = none ∧
    (build_invoice_pdf_payload cexInvoiceC8 none []).isOk = true := by
  decide

/-- C10: on a draft invoice the payload's client_name, client_tax_id and
igi_rate come from the corresponding snapshot field whenever it is present
(non-NULL and, for the strings, non-empty); the live client record / live
`igi_rate` is used only when the snapshot field is NULL (or empty). -/
theorem pdf_draft_snapshot_preference (inv : Invoice) (client : Option Client)
    (lines : List InvoiceLine) (hd : inv.status = "draft") :
    ∃ p, build_invoice_pdf_payload inv client lines = .ok p ∧
      (∀ s, inv.client_name_snapshot = some s → s ≠ "" → p.client_name = s) ∧
      ((inv.client_name_snapshot = none ∨ inv.client_name_snapshot = some "") →
        p.client_name = (match client with | some c => c.name | none => "")) ∧
      (∀ s, inv.client_tax_id_snapshot = some s → s ≠ "" →
        p.client_tax_id = s) ∧
      ((inv.client_tax_id_snapshot = none ∨
          inv.client_tax_id_snapshot = some "") →
        p.client_tax_id = (match client with | some c => c.tax_id | none => "")) ∧
      (∀ r, inv.igi_rate_snapshot = some r → p.igi_rate = r) ∧
      (inv.igi_rate_snapshot = none → p.igi_rate = inv.igi_rate) := by
  refine ⟨_, build_draft_eq inv client lines hd, ?_, ?_, ?_, ?_, ?_, ?_⟩
  · intro s hs hne
    simp [strOr, hs, hne]
  · rintro (h | h) <;> simp [strOr, h]
  · intro s hs hne
    simp [strOr, hs, hne]
  · rintro (h | h) <;> simp [strOr, h]
  · intro r hr
    simp [hr]
  · intro hr
    simp [hr]

theorem pdf_draft_snapshot_preference_witness :
    ∃ p, build_invoice_pdf_payload witC10inv (some witC2client2) [] = .ok p ∧
      (∀ s, witC10inv.client_name_snapshot = some s → s ≠ "" →
        p.client_name = s) ∧
      ((witC10inv.client_name_snapshot = none ∨
          witC10inv.client_name_snapshot = some "") →
        p.client_name =
          (match some witC2client2 with | some c => c.name | none => "")) ∧
      (∀ s, witC10inv.client_tax_id_snapshot = some s → s ≠ "" →
        p.client_tax_id = s) ∧
      ((witC10inv.client_tax_id_snapshot = none ∨
          witC10inv.client_tax_id_snapshot = some "") →
        p.client_tax_id =
          (match some witC2client2 with | some c => c.tax_id | none => "")) ∧
      (∀ r, witC10inv.igi_rate_snapshot = some r → p.igi_rate = r) ∧
      (witC10inv.igi_rate_snapshot = none → p.igi_rate = witC10inv.igi_rate) :=
  pdf_draft_snapshot_preference witC10inv (some witC2client2) [] (by decide)

theorem pdf_missing_snapshot_iff_witness :
    ((∃ msg, build_invoice_pdf_payload witC8inv none [] = .error msg) ↔
      (witC8inv.client_name_snapshot = none ∨
       witC8inv.client_tax_id_snapshot = none ∨
       witC8inv.subtotal_snapshot = none ∨
       witC8inv.igi_amount_snapshot = none ∨
       witC8inv.total_snapshot = none ∨
       witC8inv.igi_rate_snapshot = none)) ∧
    (∀ field, requiredSnapshotMissing witC8inv = some field →
      build_invoice_pdf_payload witC8inv none [] =
        .error ("Missing snapshot: " ++ field ++ " for invoice " ++
          toString witC8inv.id)) :=
  pdf_missing_snapshot_iff witC8inv none [] (by decide)

/-- C6: `compute_totals` returns subtotal = Σ lineSubtotal, discount = Σ
lineDiscount, base = subtotal − discount, igi = round2(base × igiRate/100)
and total = round2(base + igi), where for each line lineSubtotal =
round2(qty × unitPrice), lineDiscount = round2(lineSubtotal × discountPct /
100), lineTotal = round2(lineSubtotal − lineDiscount), each per-line value
rounded to 2 decimals half-up before being summed; with the spec's example
(qty 3 × 10.005 → 30.02) and half-up (not half-even, not truncation)
evidence (10.025 → 10.03). -/
theorem compute_totals_spec (invoice : Invoice) (lines : List InvoiceLine) :
    (compute_line_amounts lines = lines.map (fun line =>
      (line, money_round (line.qty * line.unit_price),
        money_round (money_round (line.qty * line.unit_price) *
          (line.discount_pct / 100)),
        money_round (money_round (line.qty * line.unit_price) -
          money_round (money_round (line.qty * line.unit_price) *
            (line.discount_pct / 100)))))) ∧
    (compute_totals invoice lines =
      (let subtotal := (lines.map (fun l =>
         money_round (l.qty * l.unit_price))).sum
       let discount := (lines.map (fun l =>
         money_round (money_round (l.qty * l.unit_price) *
           (l.discount_pct / 100)))).sum
       let base := subtotal - discount
       let igi := money_round (base * (invoice.igi_rate / 100))
       { subtotal := subtotal, discount := discount, base := base,
         igi := igi, total := money_round (base + igi) })) ∧
    (money_round (3 * (10005/1000 : ℚ)) = 3002/100) ∧
    (money_round (10025/1000 : ℚ) = 1003/100) := by
  have hmap : compute_line_amounts lines = lines.map (fun line =>
      (line, money_round (line.qty * line.unit_price),
        money_round (money_round (line.qty * line.unit_price) *
          (line.discount_pct / 100)),
        money_round (money_round (line.qty * line.unit_price) -
          money_round (money_round (line.qty * line.unit_price) *
            (line.discount_pct / 100))))) := rfl
  refine ⟨hmap, ?_, by decide, by decide⟩
  have hsub : ((compute_line_amounts lines).map (fun a => a.2.1)).sum
      = (lines.map (fun l => money_round (l.qty * l.unit_price))).sum := by
    rw [hmap, List.map_map]
    rfl
  have hdisc : ((compute_line_amounts lines).map (fun a => a.2.2.1)).sum
      = (lines.map (fun l => money_round (money_round (l.qty * l.unit_price) *
          (l.discount_pct / 100)))).sum := by
    rw [hmap, List.map_map]
    rfl
  have hcs : IsCents ((lines.map (fun l =>
      money_round (l.qty * l.unit_price))).sum) := by
    rw [← hsub]
    exact sum_line_subtotals_cents lines
  have hcd : IsCents ((lines.map (fun l =>
      money_round (money_round (l.qty * l.unit_price) *
        (l.discount_pct / 100)))).sum) := by
    rw [← hdisc]
    exact sum_line_discounts_cents lines
  unfold compute_totals
  simp only [hsub, hdisc]
  rw [money_round_eq_self _ hcs, money_round_eq_self _ hcd,
    money_round_eq_self _ (hcs.sub hcd)]

theorem seqNext_cons_pos (p : Nat × Nat) (ps : List (Nat × Nat)) (z : Nat)
    (h : p.1 = z) : seqNext (p :: ps) z = p.2 := by
  simp [seqNext, h]

theorem seqNext_cons_neg (p : Nat × Nat) (ps : List (Nat × Nat)) (z : Nat)
    (h : ¬p.1 = z) : seqNext (p :: ps) z = seqNext ps z := by
  simp [seqNext, h]

theorem seqNext_mapUpdate (seqs : List (Nat × Nat)) (y n z : Nat) :
    seqNext (seqs.map (fun p => if p.1 == y then (p.1, n) else p)) z =
      if z = y then
        (if (seqs.find? (fun p => p.1 == y)).isSome then n else 1)
      else seqNext seqs z := by
  induction seqs with
  | nil => simp [seqNext]
  | cons p ps ih =>
      simp only [List.map_cons]
      by_cases hpy : p.1 = y
      · rw [if_pos (by simpa using hpy)]
        by_cases hzy : z = y
        · subst hzy
          rw [seqNext_cons_pos (p.1, n) _ z hpy, if_pos rfl,
            List.find?_cons_of_pos _ (by simpa using hpy)]
          simp
        · have hpz : ¬((p.1, n).1 = z) := by
            simpa [hpy] using fun h => hzy h.symm
          have hpz' : ¬(p.1 = z) := by simpa using hpz
          rw [seqNext_cons_neg (p.1, n) _ z hpz, ih, if_neg hzy, if_neg hzy,
            seqNext_cons_neg p ps z hpz']
      · rw [if_neg (by simpa using hpy)]
        by_cases hpz : p.1 = z
        · have hzy : ¬(z = y) := fun h => hpy (hpz.trans h)
          rw [seqNext_cons_pos p _ z hpz, if_neg hzy,
            seqNext_cons_pos p ps z hpz]
        · rw [seqNext_cons_neg p _ z hpz, ih,
            List.find?_cons_of_neg _ (by simpa using hpy)]
          by_cases hzy : z = y
          · simp [hzy]
          · rw [if_neg hzy, if_neg hzy, seqNext_cons_neg p ps z hpz]

theorem seqNext_append_new (seqs : List (Nat × Nat)) (y n z : Nat)
    (h : seqs.find? (fun p => p.1 == y) = none) :
    seqNext (seqs ++ [(y, n)]) z = if z = y then n else seqNext seqs z := by
  induction seqs with
  | nil =>
      rw [List.nil_append]
      by_cases hzy : z = y
      · rw [hzy, seqNext_cons_pos (y, n) [] y rfl, if_pos rfl]
      · have hyz : ¬((y, n).1 = z) := fun hc => hzy hc.symm
        rw [seqNext_cons_neg (y, n) [] z hyz, if_neg hzy]
  | cons p ps ih =>
      have hpy : ¬(p.1 = y) := by
        intro hc
        rw [List.find?_cons_of_pos _ (by simpa using hc)] at h
        exact Option.noConfusion h
      have htail : ps.find? (fun p => p.1 == y) = none := by
        rwa [List.find?_cons_of_neg _ (by simpa using hpy)] at h
      rw [List.cons_append]
      by_cases hpz : p.1 = z
      · have hzy : ¬(z = y) := fun hc => hpy (hpz.trans hc)
        rw [seqNext_cons_pos p _ z hpz, if_neg hzy, seqNext_cons_pos p ps z hpz]
      · rw [seqNext_cons_neg p _ z hpz, ih htail]
        by_cases hzy : z = y
        · simp [hzy]
        · rw [if_neg hzy, if_neg hzy, seqNext_cons_neg p ps z hpz]

theorem seqNext_setNext (seqs : List (Nat × Nat)) (y n z : Nat) :
    seqNext (setNext seqs y n) z = if z = y then n else seqNext seqs z := by
  unfold setNext
  cases hfind : seqs.find? (fun p => p.1 == y) with
  | some p =>
      rw [if_pos (by simp [hfind]), seqNext_mapUpdate, hfind]
      simp
  | none =>
      rw [if_neg (by simp [hfind])]
      exact seqNext_append_new seqs y n z hfind

theorem getNext_assign (st : DbState) (iid year : Nat) (cl : Client)
    (totals : Totals) (terms : Nat) (z : Nat) :
    getNext (assign_number_and_snapshot st iid year cl totals terms) z =
      if z = year then getNext st year + 1 else getNext st z := by
  unfold assign_number_and_snapshot updateInvoice getNext
  exact seqNext_setNext st.seqs year (getNext st year + 1) z

theorem find?_map_update (l : List Invoice) (iid : Nat) (f : Invoice → Invoice)
    (hf : ∀ i, (f i).id = i.id) (j : Nat) :
    (l.map (fun i => if i.id == iid then f i else i)).find?
        (fun i => i.id == j) =
      if j = iid then (l.find? (fun i => i.id == iid)).map f
      else l.find? (fun i => i.id == j) := by
  induction l with
  | nil => simp
  | cons a l ih =>
      simp only [List.map_cons]
      by_cases hai : a.id = iid
      · rw [if_pos (by simpa using hai)]
        by_cases hji : j = iid
        · rw [if_pos hji, List.find?_cons_of_pos _ (by simp [hf, hai, hji]),
            List.find?_cons_of_pos _ (by simpa using hai)]
          simp
        · have hneq : ¬((f a).id = j) := by
            rw [hf a, hai]
            exact fun hc => hji hc.symm
          have hneq' : ¬(a.id = j) := by
            rw [hai]
            exact fun hc => hji hc.symm
          rw [List.find?_cons_of_neg _ (by simpa using hneq), ih, if_neg hji,
            if_neg hji, List.find?_cons_of_neg _ (by simpa using hneq')]
      · rw [if_neg (by simpa using hai)]
        by_cases haj : a.id = j
        · have hji : ¬(j = iid) := fun hc => hai (haj.symm ▸ hc ▸ rfl)
          rw [List.find?_cons_of_pos _ (by simpa using haj), if_neg hji,
            List.find?_cons_of_pos _ (by simpa using haj)]
        · rw [List.find?_cons_of_neg _ (by simpa using haj), ih]
          by_cases hji : j = iid
          · rw [if_pos hji, if_pos hji,
              List.find?_cons_of_neg _ (by simpa [hji] using hai)]
          · rw [if_neg hji, if_neg hji,
              List.find?_cons_of_neg _ (by simpa using haj)]

theorem findInvoice_updateInvoice (st : DbState) (iid : Nat)
    (f : Invoice → Invoice) (hf : ∀ i, (f i).id = i.id) (j : Nat) :
    findInvoice (updateInvoice st iid f) j =
      if j = iid then (findInvoice st iid).map f else findInvoice st j :=
  find?_map_update st.invoices iid f hf j

theorem applySnapshot_id (year n : Nat) (cl : Client) (totals : Totals)
    (terms : Nat) (inv : Invoice) :
    (applySnapshot year n cl totals terms inv).id = inv.id := rfl

theorem findInvoice_assign (st : DbState) (iid year : Nat) (cl : Client)
    (totals : Totals) (terms : Nat) (j : Nat) :
    findInvoice (assign_number_and_snapshot st iid year cl totals terms) j =
      if j = iid then
        (findInvoice st iid).map
          (applySnapshot year (getNext st year) cl totals terms)
      else findInvoice st j :=
  find?_map_update st.invoices iid _ (applySnapshot_id year _ cl totals terms) j

theorem issue_invoice_notFound (st : DbState) (iid : Nat)
    (cf : Nat → Bool) (h : findInvoice st iid = none) :
    issue_invoice st iid cf = (.notFound, st) := by
  unfold issue_invoice
  rw [h]

theorem issue_invoice_alreadyFinal (st : DbState) (iid : Nat) (inv : Invoice)
    (cf : Nat → Bool) (h : findInvoice st iid = some inv)
    (hs : ¬inv.status = "draft") :
    issue_invoice st iid cf = (.alreadyFinal, st) := by
  unfold issue_invoice
  rw [h]
  simp [hs]

theorem issue_invoice_empty (st : DbState) (iid : Nat) (inv : Invoice)
    (cf : Nat → Bool) (h : findInvoice st iid = some inv)
    (hs : inv.status = "draft") (hl : inv.lines = []) :
    issue_invoice st iid cf = (.emptyInvoice, st) := by
  unfold issue_invoice
  rw [h]
  simp [hs, hl]

theorem issue_invoice_clientMissing (st : DbState) (iid : Nat) (inv : Invoice)
    (cf : Nat → Bool) (h : findInvoice st iid = some inv)
    (hs : inv.status = "draft") (hl : inv.lines ≠ [])
    (hc : findClient st inv.client_id = none) :
    issue_invoice st iid cf = (.clientMissing, st) := by
  unfold issue_invoice
  rw [h]
  simp [hs, hl, hc]

theorem issue_invoice_success (st : DbState) (iid : Nat) (inv : Invoice)
    (cl : Client) (cf : Nat → Bool) (h : findInvoice st iid = some inv)
    (hs : inv.status = "draft") (hl : inv.lines ≠ [])
    (hc : findClient st inv.client_id = some cl)
    (hcf : ¬(cf 0 = true ∧ cf 1 = true)) :
    issue_invoice st iid cf =
      (.issuedOk inv.issue_date_year (getNext st inv.issue_date_year),
        assign_number_and_snapshot st iid inv.issue_date_year cl
          (compute_totals inv inv.lines)
          ((effective_payment_terms_days cl st.company).getD 0)) := by
  unfold issue_invoice
  rw [h]
  cases hc0 : cf 0 with
  | false => simp [hs, hl, hc, hc0]
  | true =>
      have hc1 : cf 1 = false := by
        cases hc1 : cf 1 with
        | false => rfl
        | true => exact absurd ⟨hc0, hc1⟩ hcf
      simp [hs, hl, hc, hc0, hc1]

theorem issue_invoice_conflict (st : DbState) (iid : Nat) (inv : Invoice)
    (cl : Client) (cf : Nat → Bool) (h : findInvoice st iid = some inv)
    (hs : inv.status = "draft") (hl : inv.lines ≠ [])
    (hc : findClient st inv.client_id = some cl)
    (hc0 : cf 0 = true) (hc1 : cf 1 = true) :
    issue_invoice st iid cf = (.integrityFailure, st) := by
  unfold issue_invoice
  rw [h]
  simp [hs, hl, hc, hc0, hc1]

theorem issue_invoice_shape (st : DbState) (iid : Nat) (cf : Nat → Bool) :
    ((issue_invoice st iid cf).2 = st ∧
      ∀ y n, (issue_invoice st iid cf).1 ≠ .issuedOk y n) ∨
    (∃ y, (issue_invoice st iid cf).1 = .issuedOk y (getNext st y) ∧
      ∀ z, getNext (issue_invoice st iid cf).2 z =
        if z = y then getNext st y + 1 else getNext st z) := by
  cases hfind : findInvoice st iid with
  | none =>
      left
      rw [issue_invoice_notFound st iid cf hfind]
      exact ⟨rfl, by intro y n h; exact IssueResult.noConfusion h⟩
  | some inv =>
      by_cases hs : inv.status = "draft"
      · by_cases hl : inv.lines = []
        · left
          rw [issue_invoice_empty st iid inv cf hfind hs hl]
          exact ⟨rfl, by intro y n h; exact IssueResult.noConfusion h⟩
        · cases hcl : findClient st inv.client_id with
          | none =>
              left
              rw [issue_invoice_clientMissing st iid inv cf hfind hs hl hcl]
              exact ⟨rfl, by intro y n h; exact IssueResult.noConfusion h⟩
          | some cl =>
              by_cases hcf : cf 0 = true ∧ cf 1 = true
              · left
                rw [issue_invoice_conflict st iid inv cl cf hfind hs hl hcl
                  hcf.1 hcf.2]
                exact ⟨rfl, by intro y n h; exact IssueResult.noConfusion h⟩
              · right
                refine ⟨inv.issue_date_year, ?_, ?_⟩
                · rw [issue_invoice_success st iid inv cl cf hfind hs hl hcl hcf]
                · intro z
                  rw [issue_invoice_success st iid inv cl cf hfind hs hl hcl hcf]
                  exact getNext_assign st iid inv.issue_date_year cl _ _ z
      · left
        rw [issue_invoice_alreadyFinal st iid inv cf hfind hs]
        exact ⟨rfl, by intro y n h; exact IssueResult.noConfusion h⟩

theorem issueEvent_eq_none (r : IssueResult)
    (h : ∀ y n, r ≠ .issuedOk y n) : issueEvent r = none := by
  cases r with
  | issuedOk y n => exact absurd rfl (h y n)
  | notFound => rfl
  | alreadyFinal => rfl
  | emptyInvoice => rfl
  | clientMissing => rfl
  | integrityFailure => rfl

theorem issueRun_cons (st : DbState) (iid : Nat) (rest : List Nat) :
    issueRun st (iid :: rest) =
      ((issueEvent (issue_invoice st iid noFailure).1).toList ++
        (issueRun (issue_invoice st iid noFailure).2 rest).1,
       (issueRun (issue_invoice st iid noFailure).2 rest).2) := rfl

/-- The numbers allocated for a fixed year `Y` during an issuance run are
consecutive, starting at the year's stored `next_number`. -/
theorem issueRun_year_numbers (ids : List Nat) :
    ∀ (st : DbState) (Y : Nat),
    (((issueRun st ids).1.filter (fun e => e.1 == Y)).map (fun e => e.2)) =
      List.range' (getNext st Y)
        (((issueRun st ids).1.filter (fun e => e.1 == Y)).length) := by
  induction ids with
  | nil =>
      intro st Y
      simp [issueRun]
  | cons iid rest ih =>
      intro st Y
      rw [issueRun_cons]
      rcases issue_invoice_shape st iid noFailure with ⟨heq, hne⟩ | ⟨y, h1, h2⟩
      · rw [issueEvent_eq_none _ hne]
        simp only [Option.toList_none, List.nil_append]
        rw [heq]
        exact ih st Y
      · rw [h1]
        simp only [issueEvent, Option.toList_some, List.singleton_append,
          List.filter_cons]
        by_cases hyY : y = Y
        · subst hyY
          simp only [beq_self_eq_true, if_pos]
          rw [List.map_cons, List.length_cons, List.range'_succ]
          have hnext : getNext (issue_invoice st iid noFailure).2 y =
              getNext st y + 1 := by
            rw [h2 y, if_pos rfl]
          rw [ih _ y, hnext]
        · have hbeq : (y == Y) = false := by simpa using hyY
          rw [hbeq]
          simp only [Bool.false_eq_true, if_neg, ite_false]
          have hnext : getNext (issue_invoice st iid noFailure).2 Y =
              getNext st Y := by
            rw [h2 Y, if_neg (fun hc => hyY hc.symm)]
          rw [ih _ Y, hnext]

theorem issueRun_getNext_mono (ids : List Nat) :
    ∀ (st : DbState) (y : Nat),
      getNext st y ≤ getNext ((issueRun st ids).2) y := by
  induction ids with
  | nil =>
      intro st y
      simp [issueRun]
  | cons iid rest ih =>
      intro st y
      rw [issueRun_cons]
      have hstep : getNext st y ≤ getNext (issue_invoice st iid noFailure).2 y := by
        rcases issue_invoice_shape st iid noFailure with ⟨heq, _⟩ | ⟨y', _, h2⟩
        · rw [heq]
        · rw [h2 y]
          by_cases hy : y = y'
          · rw [if_pos hy]
            subst hy
            exact Nat.le_succ _
          · rw [if_neg hy]
      exact le_trans hstep (ih _ y)

/-- C4: for any starting state and any sequence of issuance requests
(arbitrarily interleaving years), the `number`s allocated for a year `Y` are
consecutive from the year's stored `next_number` in issuance order; in
particular, when year `Y`'s counter stands at 1 (a fresh year, as on the
freshly migrated database, where every year's counter reads 1), the numbers
allocated for `Y` are exactly `1, 2, ..., N` — no gaps, no duplicates —
where `N` is the count of successful issuances for `Y`; and the stored
`next_number` of every year never decreases over any run. -/
theorem sequence_numbers_per_year :
    (∀ (st : DbState) (ids : List Nat) (Y : Nat),
      (((issueRun st ids).1.filter (fun e => e.1 == Y)).map
          (fun e => e.2)) =
        List.range' (getNext st Y)
          (((issueRun st ids).1.filter (fun e => e.1 == Y)).length)) ∧
    (∀ (st : DbState) (ids : List Nat) (Y : Nat),
      getNext st Y = 1 →
      (((issueRun st ids).1.filter (fun e => e.1 == Y)).map
          (fun e => e.2)) =
        List.range' 1
          (((issueRun st ids).1.filter (fun e => e.1 == Y)).length)) ∧
    (∀ y, getNext initState y = 1) ∧
    (∀ (st : DbState) (ids : List Nat) (y : Nat),
      getNext st y ≤ getNext ((issueRun st ids).2) y) := by
  refine ⟨?_, ?_, ?_, ?_⟩
  · intro st ids Y
    exact issueRun_year_numbers ids st Y
  · intro st ids Y h1
    rw [issueRun_year_numbers ids st Y, h1]
  · intro y
    rfl
  · exact fun st ids y => issueRun_getNext_mono ids st y

theorem sequence_numbers_per_year_witness :
    ((((issueRun scenarioState [1, 2, 3]).1.filter
        (fun e => e.1 == 2026)).map (fun e => e.2)) =
      List.range' 1
        (((issueRun scenarioState [1, 2, 3]).1.filter
          (fun e => e.1 == 2026)).length)) ∧
    (issueRun scenarioState [1, 2, 3]).1 = [(2026, 1), (2026, 2), (2027, 1)] :=
  ⟨sequence_numbers_per_year.2.1 scenarioState [1, 2, 3] 2026 (by decide),
   by decide⟩

/-- C3: invoking the issue endpoint on an invoice whose status is already
issued or paid is not an error: it redirects with the database state — hence
the invoice, its number and all snapshot fields — unchanged, consumes no
sequence number for any year, and a second invocation returns exactly the
same result. -/
theorem reissue_is_idempotent_noop (st : DbState) (iid : Nat) (inv : Invoice)
    (cf cf' : Nat → Bool) (hfind : findInvoice st iid = some inv)
    (hstat : inv.status = "issued" ∨ inv.status = "paid") :
    issue_invoice st iid cf = (.alreadyFinal, st) ∧
    findInvoice (issue_invoice st iid cf).2 iid = some inv ∧
    (∀ y, getNext (issue_invoice st iid cf).2 y = getNext st y) ∧
    issue_invoice (issue_invoice st iid cf).2 iid cf' =
      issue_invoice st iid cf' := by
  have hs : ¬inv.status = "draft" := by
    rcases hstat with h | h <;> rw [h] <;> decide
  have heq := issue_invoice_alreadyFinal st iid inv cf hfind hs
  refine ⟨heq, ?_, ?_, ?_⟩
  · rw [heq]
    exact hfind
  · intro y
    rw [heq]
  · rw [heq]

/-- C7: issuing a draft invoice that has zero lines fails with the empty
invoice error and performs no mutation: the state is returned unchanged, so
the invoice keeps status draft with no snapshot field set, and no sequence
number is consumed for any year. -/
theorem empty_issue_rejected (st : DbState) (iid : Nat) (inv : Invoice)
    (cf : Nat → Bool) (hfind : findInvoice st iid = some inv)
    (hdraft : inv.status = "draft") (hempty : inv.lines = []) :
    issue_invoice st iid cf = (.emptyInvoice, st) ∧
    findInvoice (issue_invoice st iid cf).2 iid = some inv ∧
    inv.status = "draft" ∧
    (∀ y, getNext (issue_invoice st iid cf).2 y = getNext st y) := by
  have heq := issue_invoice_empty st iid inv cf hfind hdraft hempty
  refine ⟨heq, ?_, hdraft, ?_⟩
  · rw [heq]
    exact hfind
  · intro y
    rw [heq]

theorem snapshotConsistent_applySnapshot (year n : Nat) (cl : Client)
    (totals : Totals) (terms : Nat) (inv : Invoice) :
    snapshotConsistent (applySnapshot year n cl totals terms inv) := by
  right
  constructor
  · left
    rfl
  · refine ⟨?_, ?_, ?_, ?_, ?_, ?_, ?_, ?_, ?_⟩ <;> simp [applySnapshot]

theorem InvariantState_updateInvoice (st : DbState) (iid : Nat)
    (f : Invoice → Invoice) (h : InvariantState st)
    (hf : ∀ inv, snapshotConsistent inv → snapshotConsistent (f inv)) :
    InvariantState (updateInvoice st iid f) := by
  intro inv hmem
  unfold updateInvoice at hmem
  simp only [List.mem_map] at hmem
  obtain ⟨a, ha, heq⟩ := hmem
  rw [← heq]
  by_cases hid : (a.id == iid) = true
  · rw [if_pos hid]
    exact hf a (h a ha)
  · rw [if_neg hid]
    exact h a ha

theorem InvariantState_applyOp (st : DbState) (op : Op)
    (h : InvariantState st) : InvariantState (applyOp st op) := by
  cases op with
  | createClient name tax_id terms =>
      show InvariantState (create_client st name tax_id terms)
      unfold create_client
      split
      · exact h
      · intro inv hmem
        exact h inv hmem
  | updateClient cid name tax_id terms =>
      show InvariantState (update_client st cid name tax_id terms)
      unfold update_client
      split
      · exact h
      · intro inv hmem
        exact h inv hmem
  | updateCompany name terms =>
      show InvariantState (update_company st name terms)
      unfold update_company
      split
      · exact h
      · intro inv hmem
        exact h inv hmem
  | deleteClient cid =>
      show InvariantState (delete_client st cid)
      intro inv hmem
      exact h inv hmem
  | restoreClient cid =>
      show InvariantState (restore_client st cid)
      intro inv hmem
      exact h inv hmem
  | createInvoice cid year currency igi_rate =>
      show InvariantState (create_invoice st cid year currency igi_rate)
      unfold create_invoice
      split
      · exact h
      · split
        · exact h
        · intro inv hmem
          simp only [List.mem_append, List.mem_singleton] at hmem
          rcases hmem with hmem | hmem
          · exact h inv hmem
          · subst hmem
            left
            exact ⟨rfl, rfl, rfl, rfl, rfl, rfl, rfl, rfl, rfl, rfl⟩
  | addLine iid description qty unit_price discount_pct =>
      show InvariantState (add_line st iid description qty unit_price
        discount_pct)
      unfold add_line
      split
      · exact h
      · split
        · exact h
        · split
          · exact h
          · exact InvariantState_updateInvoice _ _ _ h (fun inv hc => hc)
  | deleteLine iid lid =>
      show InvariantState (delete_line st iid lid)
      unfold delete_line
      split
      · exact h
      · split
        · exact h
        · exact InvariantState_updateInvoice _ _ _ h (fun inv hc => hc)
  | issue iid cf =>
      show InvariantState (issue_invoice st iid cf).2
      cases hfind : findInvoice st iid with
      | none =>
          rw [issue_invoice_notFound st iid cf hfind]
          exact h
      | some inv =>
          by_cases hs : inv.status = "draft"
          · by_cases hl : inv.lines = []
            · rw [issue_invoice_empty st iid inv cf hfind hs hl]
              exact h
            · cases hcl : findClient st inv.client_id with
              | none =>
                  rw [issue_invoice_clientMissing st iid inv cf hfind hs hl hcl]
                  exact h
              | some cl =>
                  by_cases hcf : cf 0 = true /\ cf 1 = true
                  · rw [issue_invoice_conflict st iid inv cl cf hfind hs hl hcl
                      hcf.1 hcf.2]
                    exact h
                  · rw [issue_invoice_success st iid inv cl cf hfind hs hl hcl
                      hcf]
                    exact InvariantState_updateInvoice _ _ _ h
                      (fun inv2 _ => snapshotConsistent_applySnapshot _ _ _ _ _ _)
          · rw [issue_invoice_alreadyFinal st iid inv cf hfind hs]
            exact h
  | markPaid iid =>
      show InvariantState (mark_paid st iid)
      refine InvariantState_updateInvoice _ _ _ h ?_
      intro inv hc
      by_cases hsi : inv.status = "issued"
      · rw [if_pos hsi]
        rcases hc with ⟨hd, _⟩ | ⟨_, hsome⟩
        · rw [hd] at hsi
          exact absurd hsi (by decide)
        · right
          exact ⟨Or.inr rfl, hsome⟩
      · rw [if_neg hsi]
        exact hc
  | deleteInvoice iid =>
      show InvariantState (delete_invoice st iid)
      intro inv hmem
      simp only [delete_invoice, List.mem_filter] at hmem
      exact h inv hmem.1

theorem InvariantState_foldl (ops : List Op) :
    ∀ st : DbState, InvariantState st →
      InvariantState (ops.foldl applyOp st) := by
  induction ops with
  | nil => exact fun st h => h
  | cons op rest ih =>
      intro st h
      exact ih (applyOp st op) (InvariantState_applyOp st op h)

/-- C1: a successful issuance of a draft invoice with at least one line
leaves the stored invoice with status issued and all snapshot fields
non-NULL; and in every reachable state each invoice has either all snapshot
fields NULL with status draft, or all non-NULL with status issued/paid —
never a partial snapshot. -/
theorem issuance_snapshot_invariant :
    (∀ (st : DbState) (iid : Nat) (cf : Nat → Bool) (inv : Invoice)
      (y n : Nat),
      findInvoice st iid = some inv → inv.status = "draft" →
      inv.lines ≠ [] → (issue_invoice st iid cf).1 = .issuedOk y n →
      ∃ inv', findInvoice (issue_invoice st iid cf).2 iid = some inv' ∧
        inv'.status = "issued" ∧ snapshotFieldsSome inv') ∧
    (∀ ops : List Op, InvariantState (runOps ops)) := by
  constructor
  · intro st iid cf inv y n hfind hdraft hlines hok
    cases hcl : findClient st inv.client_id with
    | none =>
        rw [issue_invoice_clientMissing st iid inv cf hfind hdraft hlines hcl]
          at hok
        exact absurd hok (by simp)
    | some cl =>
        by_cases hcf : cf 0 = true ∧ cf 1 = true
        · rw [issue_invoice_conflict st iid inv cl cf hfind hdraft hlines hcl
            hcf.1 hcf.2] at hok
          exact absurd hok (by simp)
        · rw [issue_invoice_success st iid inv cl cf hfind hdraft hlines hcl hcf]
          rw [findInvoice_assign, if_pos rfl, hfind, Option.map_some']
          refine ⟨_, rfl, rfl, ?_⟩
          refine ⟨?_, ?_, ?_, ?_, ?_, ?_, ?_, ?_, ?_⟩ <;> simp [applySnapshot]
  · intro ops
    apply InvariantState_foldl
    intro inv hmem
    exact absurd hmem (by simp [initState])

theorem issuance_snapshot_invariant_witness :
    (∃ inv', findInvoice (issue_invoice scenarioState 1 noFailure).2 1 =
        some inv' ∧ inv'.status = "issued" ∧ snapshotFieldsSome inv') ∧
    InvariantState (runOps
      [Op.createClient "ACME SL" "A123" (some 30),
       Op.createInvoice 1 2026 "EUR" 0,
       Op.addLine 1 "Servicio" 1 10 0,
       Op.issue 1 noFailure,
       Op.markPaid 1]) :=
  ⟨issuance_snapshot_invariant.1 scenarioState 1 noFailure (witDraft 1 2026)
      2026 1 (by decide) (by decide) (by decide) (by decide),
   issuance_snapshot_invariant.2 _⟩

/-- C5: allocation for year `y` reads `n` as the year's `next_number`
(1 when the row is absent, which creates it), stores `n + 1`, and assigns
`number = n` and `invoice_number = "TC" ++ two-digit year ++ n zero-padded
to at least two digits`; concretely the first 2026 issuance yields
`"TC2601"`, the second `"TC2602"`, and the first of 2027 `"TC2701"`. -/
theorem allocation_spec :
    (∀ (st : DbState) (iid year : Nat) (cl : Client) (totals : Totals)
      (terms : Nat),
      getNext (assign_number_and_snapshot st iid year cl totals terms) year =
        getNext st year + 1 ∧
      (∀ z, z ≠ year →
        getNext (assign_number_and_snapshot st iid year cl totals terms) z =
          getNext st z) ∧
      (∀ inv, findInvoice st iid = some inv →
        findInvoice (assign_number_and_snapshot st iid year cl totals terms)
            iid =
          some (applySnapshot year (getNext st year) cl totals terms inv) ∧
        (applySnapshot year (getNext st year) cl totals terms inv).number =
          some (getNext st year) ∧
        (applySnapshot year (getNext st year) cl totals terms
            inv).invoice_number =
          some ("TC" ++ pad2 (year % 100) ++ pad2 (getNext st year)))) ∧
    ((findInvoice (issueRun scenarioState [1, 2, 3]).2 1).map
        Invoice.invoice_number = some (some "TC2601") ∧
     (findInvoice (issueRun scenarioState [1, 2, 3]).2 2).map
        Invoice.invoice_number = some (some "TC2602") ∧
     (findInvoice (issueRun scenarioState [1, 2, 3]).2 3).map
        Invoice.invoice_number = some (some "TC2701")) := by
  constructor
  · intro st iid year cl totals terms
    refine ⟨?_, ?_, ?_⟩
    · rw [getNext_assign, if_pos rfl]
    · intro z hz
      rw [getNext_assign, if_neg hz]
    · intro inv hfind
      rw [findInvoice_assign, if_pos rfl, hfind, Option.map_some']
      exact ⟨rfl, rfl, rfl⟩
  · exact ⟨by decide, by decide, by decide⟩

theorem allocation_spec_witness :
    getNext (assign_number_and_snapshot scenarioState 1 2026 witClient
      (compute_totals (witDraft 1 2026) [witLine 1]) 30) 2026 =
      getNext scenarioState 2026 + 1 ∧
    (findInvoice (issueRun scenarioState [1, 2, 3]).2 1).map
        Invoice.invoice_number = some (some "TC2601") :=
  ⟨(allocation_spec.1 scenarioState 1 2026 witClient
      (compute_totals (witDraft 1 2026) [witLine 1]) 30).1,
   allocation_spec.2.1⟩

theorem reissue_is_idempotent_noop_witness :
    issue_invoice scenarioState 5 noFailure = (.alreadyFinal, scenarioState) ∧
    findInvoice (issue_invoice scenarioState 5 noFailure).2 5 =
      some witIssuedInv ∧
    (∀ y, getNext (issue_invoice scenarioState 5 noFailure).2 y =
      getNext scenarioState y) ∧
    issue_invoice (issue_invoice scenarioState 5 noFailure).2 5 noFailure =
      issue_invoice scenarioState 5 noFailure :=
  reissue_is_idempotent_noop scenarioState 5 witIssuedInv noFailure noFailure
    (by decide) (Or.inl (by decide))

theorem empty_issue_rejected_witness :
    issue_invoice scenarioState 4 noFailure = (.emptyInvoice, scenarioState) ∧
    findInvoice (issue_invoice scenarioState 4 noFailure).2 4 =
      some witEmptyDraft ∧
    witEmptyDraft.status = "draft" ∧
    (∀ y, getNext (issue_invoice scenarioState 4 noFailure).2 y =
      getNext scenarioState y) :=
  empty_issue_rejected scenarioState 4 witEmptyDraft noFailure (by decide)
    (by decide) (by decide)

/-- C9: when committing the combined allocation-and-snapshot write conflicts,
the operation is rolled back and retried exactly once more (only attempts 0
and 1 are ever consulted); a conflict on both attempts propagates the
failure with the state rolled back, while success on either attempt applies
exactly one allocation (the year's `next_number` advances by exactly 1 and
no other year changes). -/
theorem integrity_retry_policy (st : DbState) (iid : Nat) (inv : Invoice)
    (cl : Client) (cf : Nat → Bool)
    (hfind : findInvoice st iid = some inv) (hdraft : inv.status = "draft")
    (hlines : inv.lines ≠ [])
    (hcl : findClient st inv.client_id = some cl) :
    ((cf 0 = true ∧ cf 1 = true) →
      issue_invoice st iid cf = (.integrityFailure, st)) ∧
    (¬(cf 0 = true ∧ cf 1 = true) →
      issue_invoice st iid cf =
        (.issuedOk inv.issue_date_year (getNext st inv.issue_date_year),
         assign_number_and_snapshot st iid inv.issue_date_year cl
           (compute_totals inv inv.lines)
           ((effective_payment_terms_days cl st.company).getD 0))) ∧
    getNext (assign_number_and_snapshot st iid inv.issue_date_year cl
        (compute_totals inv inv.lines)
        ((effective_payment_terms_days cl st.company).getD 0))
        inv.issue_date_year = getNext st inv.issue_date_year + 1 ∧
    (∀ z, z ≠ inv.issue_date_year →
      getNext (assign_number_and_snapshot st iid inv.issue_date_year cl
        (compute_totals inv inv.lines)
        ((effective_payment_terms_days cl st.company).getD 0)) z =
        getNext st z) ∧
    (∀ cf' : Nat → Bool, cf' 0 = cf 0 → cf' 1 = cf 1 →
      issue_invoice st iid cf' = issue_invoice st iid cf) := by
  refine ⟨?_, ?_, ?_, ?_, ?_⟩
  · intro hcc
    exact issue_invoice_conflict st iid inv cl cf hfind hdraft hlines hcl
      hcc.1 hcc.2
  · intro hcc
    exact issue_invoice_success st iid inv cl cf hfind hdraft hlines hcl hcc
  · rw [getNext_assign, if_pos rfl]
  · intro z hz
    rw [getNext_assign, if_neg hz]
  · intro cf' h0 h1
    by_cases hcc : cf 0 = true ∧ cf 1 = true
    · rw [issue_invoice_conflict st iid inv cl cf hfind hdraft hlines hcl
        hcc.1 hcc.2,
        issue_invoice_conflict st iid inv cl cf' hfind hdraft hlines hcl
          (h0.trans hcc.1) (h1.trans hcc.2)]
    · rw [issue_invoice_success st iid inv cl cf hfind hdraft hlines hcl hcc,
        issue_invoice_success st iid inv cl cf' hfind hdraft hlines hcl
          (fun hc => hcc ⟨h0.symm.trans hc.1, h1.symm.trans hc.2⟩)]

theorem integrity_retry_policy_witness :
    ((failFirstAttempt 0 = true ∧ failFirstAttempt 1 = true) →
      issue_invoice scenarioState 1 failFirstAttempt =
        (.integrityFailure, scenarioState)) ∧
    (¬(failFirstAttempt 0 = true ∧ failFirstAttempt 1 = true) →
      issue_invoice scenarioState 1 failFirstAttempt =
        (.issuedOk (witDraft 1 2026).issue_date_year
          (getNext scenarioState (witDraft 1 2026).issue_date_year),
         assign_number_and_snapshot scenarioState 1
           (witDraft 1 2026).issue_date_year witClient
           (compute_totals (witDraft 1 2026) (witDraft 1 2026).lines)
           ((effective_payment_terms_days witClient
              scenarioState.company).getD 0))) ∧
    getNext (assign_number_and_snapshot scenarioState 1
        (witDraft 1 2026).issue_date_year witClient
        (compute_totals (witDraft 1 2026) (witDraft 1 2026).lines)
        ((effective_payment_terms_days witClient
           scenarioState.company).getD 0))
        (witDraft 1 2026).issue_date_year =
      getNext scenarioState (witDraft 1 2026).issue_date_year + 1 ∧
    (∀ z, z ≠ (witDraft 1 2026).issue_date_year →
      getNext (assign_number_and_snapshot scenarioState 1
        (witDraft 1 2026).issue_date_year witClient
        (compute_totals (witDraft 1 2026) (witDraft 1 2026).lines)
        ((effective_payment_terms_days witClient
           scenarioState.company).getD 0)) z =
        getNext scenarioState z) ∧
    (∀ cf' : Nat → Bool, cf' 0 = failFirstAttempt 0 →
      cf' 1 = failFirstAttempt 1 →
      issue_invoice scenarioState 1 cf' =
        issue_invoice scenarioState 1 failFirstAttempt) :=
  integrity_retry_policy scenarioState 1 (witDraft 1 2026) witClient
    failFirstAttempt (by decide) (by decide) (by decide) (by decide)
